import Mathlib

/-!
Verification of the invite-code issuance and redemption workflow of the
openschool backend (`app/crud/invite_code.py` together with the data model
in `app/models/invite_code.py`, `app/models/teacher_student_relation.py`
and `app/models/user.py`).

The database is embedded shallowly: each table is a list of rows, time is
an integer number of seconds, and the outcome of a database commit that can
fail for reasons outside the Python code (constraint violations, lost
connections) is made explicit as a parameter or derived from the schema's
constraints.
-/

/-- A row of the `users` table; the invite subsystem reads only `id` and
`role`. -/
structure User where
  id : Nat
  role : String
deriving Repr, DecidableEq

/-- A row of the `invite_codes` table (`app/models/invite_code.py`):
`code` is unique, `teacher_id` is a foreign key into `users`, `used`
defaults to `false`. -/
structure InviteCode where
  id : Nat
  code : String
  teacher_id : Nat
  created_at : Int
  used : Bool
deriving Repr, DecidableEq

/-- A row of the `teacher_student_relations` table
(`app/models/teacher_student_relation.py`). -/
structure TeacherStudentRelation where
  id : Nat
  teacher_id : Nat
  student_id : Nat
deriving Repr, DecidableEq

/-- The database state seen by `invite_code.py`: the three tables plus the
autoincrement counters for the two tables this module inserts into. -/
structure DB where
  users : List User
  invites : List InviteCode
  relations : List TeacherStudentRelation
  next_invite_id : Nat
  next_rel_id : Nat
deriving Repr, DecidableEq

/-- `ALPHABET = "ABCDEFGHJKLMNPQRSTUVWXYZ23456789"`: letters and digits
without the ambiguous symbols O/0 and I/1. -/
def ALPHABET : String := "ABCDEFGHJKLMNPQRSTUVWXYZ23456789"

/-- `generate_random_code(length=6)`: `random.choices(ALPHABET, k=length)`
joined into a string.  The randomness source is made explicit as `pick`,
giving the index into `ALPHABET` chosen at each position; the function is
otherwise pure. -/
def generate_random_code (pick : Nat → Fin 32) (length : Nat := 6) : String :=
  ⟨(List.range length).map fun i =>
    ALPHABET.data.get (Fin.cast (show 32 = ALPHABET.data.length from rfl) (pick i))⟩

/-- First unused invite row with the given code
(`db.query(InviteCode).filter(code == code, used == False).first()`). -/
def find_unused_invite_by_code (db : DB) (code : String) : Option InviteCode :=
  db.invites.find? fun i => i.code == code && i.used == false

/-- Any invite row with the given code (used for diagnostic logging only). -/
def find_any_invite_by_code (db : DB) (code : String) : Option InviteCode :=
  db.invites.find? fun i => i.code == code

/-- `db.query(User).filter(User.id == student_id).first()`. -/
def find_user_by_id (db : DB) (uid : Nat) : Option User :=
  db.users.find? fun u => u.id == uid

/-- `db.query(TeacherStudentRelation).filter(teacher_id ==, student_id ==).first()`. -/
def find_relation (db : DB) (tid sid : Nat) : Option TeacherStudentRelation :=
  db.relations.find? fun r => r.teacher_id == tid && r.student_id == sid

/-- Seconds in a day: `timedelta(days=n)` is `n * 86400` seconds. -/
def secondsPerDay : Int := 86400

/-- `_is_expired(invite, ttl_days=7)`:
`(datetime.utcnow() - invite.created_at) > timedelta(days=ttl_days)`.
The current time is passed explicitly. -/
def _is_expired (now : Int) (invite : InviteCode) (ttl_days : Int := 7) : Bool :=
  decide ((now - invite.created_at) > ttl_days * secondsPerDay)

/-- Whether committing `insert_invite(code, teacher_id)` raises
`IntegrityError`: the schema violations the commit can hit are the unique
constraint on `code` and the foreign key `teacher_id -> users.id`. -/
def insert_invite_violates (db : DB) (code : String) (teacher_id : Nat) : Bool :=
  db.invites.any (fun i => i.code == code) || !(db.users.any (fun u => u.id == teacher_id))

/-- The row built by `InviteCode(code=code, teacher_id=teacher_id)`:
`used=False` and `created_at=now` by the model defaults, `id` from the
autoincrement counter. -/
def mk_invite (db : DB) (code : String) (teacher_id : Nat) (now : Int) : InviteCode :=
  ⟨db.next_invite_id, code, teacher_id, now, false⟩

/-- The loop body of `create_invite_code` over the remaining attempt
numbers (`for attempt in range(5)`): generate `gen attempt`, try to commit
the insert; on `IntegrityError` roll back (state unchanged) and continue;
when the attempts run out, `raise RuntimeError`. -/
def create_invite_code_loop (db : DB) (teacher_id : Nat) (gen : Nat → String)
    (now : Int) : List Nat → Except String (InviteCode × DB)
  | [] => .error "RuntimeError"
  | attempt :: rest =>
    let code := gen attempt
    if insert_invite_violates db code teacher_id then
      create_invite_code_loop db teacher_id gen now rest
    else
      let invite := mk_invite db code teacher_id now
      .ok (invite, { db with invites := db.invites ++ [invite],
                             next_invite_id := db.next_invite_id + 1 })

/-- `create_invite_code(db, teacher_id, ttl_days=7)`: up to 5 attempts to
insert a freshly generated code; `gen` gives the code generated on each
attempt (the stream of `generate_random_code()` draws). -/
def create_invite_code (db : DB) (teacher_id : Nat) (gen : Nat → String)
    (now : Int) : Except String (InviteCode × DB) :=
  create_invite_code_loop db teacher_id gen now (List.range 5)

/-- `use_invite_code(db, code, student_id)`.  `commit_ok` tells whether the
final commit of the relation-insert-plus-mark-used transaction succeeds;
on failure the code rolls back and returns `"invalid"`. -/
def use_invite_code (db : DB) (now : Int) (code : String) (student_id : Nat)
    (commit_ok : Bool) : String × DB :=
  match find_unused_invite_by_code db code with
  | none => ("invalid", db)
  | some invite =>
    if _is_expired now invite then
      ("expired", db)
    else
      match find_user_by_id db student_id with
      | none => ("student_not_found", db)
      | some student =>
        if student.role ≠ "student" then
          ("invalid", db)
        else
          match find_relation db invite.teacher_id student.id with
          | some _ => ("already_linked", db)
          | none =>
            if commit_ok then
              ("success",
                { db with
                  relations :=
                    db.relations ++ [⟨db.next_rel_id, invite.teacher_id, student.id⟩],
                  invites := db.invites.map
                    (fun i => if i.id = invite.id then { i with used := true } else i),
                  next_rel_id := db.next_rel_id + 1 })
            else
              ("invalid", db)

/-- No two rows of `teacher_student_relations` carry the same
`(teacher_id, student_id)` pair. -/
def PairsUnique (db : DB) : Prop :=
  db.relations.Pairwise
    (fun r₁ r₂ => ¬(r₁.teacher_id = r₂.teacher_id ∧ r₁.student_id = r₂.student_id))

/-- States of the system reachable by this module: a state whose relation
table is empty, followed by any number of redemptions, issuances, and
external changes that leave the relation table alone (only the invite
subsystem writes to it). -/
inductive Reachable : DB → Prop
  | init (db : DB) (h : db.relations = []) : Reachable db
  | redeem (db : DB) (now : Int) (code : String) (sid : Nat) (ok : Bool)
      (h : Reachable db) : Reachable (use_invite_code db now code sid ok).2
  | issue (db db' : DB) (tid : Nat) (gen : Nat → String) (now : Int) (inv : InviteCode)
      (h : Reachable db) (hc : create_invite_code db tid gen now = .ok (inv, db')) :
      Reachable db'
  | external (db db' : DB) (h : Reachable db) (same : db'.relations = db.relations) :
      Reachable db'

/-- A small sample database used to instantiate the theorems: a teacher
(id 1), two students (ids 2 and 3), one fresh invite "ABC234" issued by the
teacher at time 0, and one already-used invite "USEDCD". -/
def sampleDB : DB :=
  { users := [⟨1, "teacher"⟩, ⟨2, "student"⟩, ⟨3, "student"⟩],
    invites := [⟨1, "ABC234", 1, 0, false⟩, ⟨2, "USEDCD", 1, 0, true⟩],
    relations := [], next_invite_id := 3, next_rel_id := 1 }

/-- `sampleDB` with student 2 already linked to teacher 1. -/
def sampleDBLinked : DB :=
  { sampleDB with relations := [⟨1, 1, 2⟩] }

theorem find_relation_eq_none_iff (db : DB) (tid sid : Nat) :
    find_relation db tid sid = none ↔
      ∀ r ∈ db.relations, ¬(r.teacher_id = tid ∧ r.student_id = sid) := by
  rw [find_relation, List.find?_eq_none]
  constructor
  · intro h r hr hpair
    exact h r hr (by simp [hpair.1, hpair.2])
  · intro h r hr hp
    simp only [Bool.and_eq_true, beq_iff_eq] at hp
    exact h r hr hp

theorem use_invite_code_preserves_PairsUnique (db : DB) (now : Int) (code : String)
    (sid : Nat) (ok : Bool) (h : PairsUnique db) :
    PairsUnique (use_invite_code db now code sid ok).2 := by
  rw [use_invite_code]
  cases hfind : find_unused_invite_by_code db code with
  | none => exact h
  | some invite =>
    simp only
    split
    · exact h
    · cases huser : find_user_by_id db sid with
      | none => exact h
      | some student =>
        simp only
        split
        · exact h
        · cases hrel : find_relation db invite.teacher_id student.id with
          | some r => exact h
          | none =>
            simp only
            split
            · rw [PairsUnique]
              simp only
              refine List.pairwise_append.mpr ⟨h, List.pairwise_singleton _ _, ?_⟩
              intro a ha b hb
              simp only [List.mem_singleton] at hb
              subst hb
              exact (find_relation_eq_none_iff db invite.teacher_id student.id).mp hrel a ha
            · exact h

theorem create_invite_code_loop_relations (db : DB) (tid : Nat) (gen : Nat → String)
    (now : Int) (l : List Nat) (inv : InviteCode) (db' : DB)
    (h : create_invite_code_loop db tid gen now l = .ok (inv, db')) :
    db'.relations = db.relations := by
  induction l with
  | nil => exact absurd h (by simp [create_invite_code_loop])
  | cons a rest ih =>
    rw [create_invite_code_loop] at h
    split at h
    · exact ih h
    · simp only [Except.ok.injEq, Prod.mk.injEq] at h
      rw [← h.2]

/-- C8: `generate_random_code` returns a string of exactly `length`
characters (6 when the argument is omitted), each drawn from `ALPHABET`,
and `ALPHABET` has exactly 32 distinct symbols excluding 0, O, 1 and I.
The generator is a pure function of its randomness source. -/
theorem generate_random_code_spec :
    (∀ pick length, (generate_random_code pick length).length = length) ∧
    (∀ pick, (generate_random_code pick).length = 6) ∧
    (∀ pick length, ∀ c ∈ (generate_random_code pick length).data, c ∈ ALPHABET.data) ∧
    ALPHABET.data.length = 32 ∧ ALPHABET.data.Nodup ∧
    '0' ∉ ALPHABET.data ∧ 'O' ∉ ALPHABET.data ∧
    '1' ∉ ALPHABET.data ∧ 'I' ∉ ALPHABET.data := by
  refine ⟨?_, ?_, ?_, rfl, by decide, by decide, by decide, by decide, by decide⟩
  · intro pick length
    simp only [generate_random_code, String.length, List.length_map, List.length_range]
  · intro pick
    simp only [generate_random_code, String.length, List.length_map, List.length_range]
  · intro pick length c hc
    simp only [generate_random_code, List.mem_map, List.mem_range] at hc
    obtain ⟨i, -, rfl⟩ := hc
    exact List.get_mem _ _ _

/-- Witness for C8 at a concrete randomness source and length. -/
theorem generate_random_code_spec_witness :
    ((generate_random_code (fun _ => (0 : Fin 32)) 3).length = 3) ∧
    'A' ∈ ALPHABET.data := by
  have h := generate_random_code_spec
  exact ⟨h.1 (fun _ => (0 : Fin 32)) 3,
         h.2.2.1 (fun _ => (0 : Fin 32)) 3 'A' (by decide)⟩

/-- C2: in every reachable state of the system the pair
`(teacher_id, student_id)` is unique across all rows of
`TeacherStudentRelation`, no matter how many times `use_invite_code` is
invoked with any arguments. -/
theorem reachable_relation_pairs_unique (db : DB) (h : Reachable db) : PairsUnique db := by
  induction h with
  | init db hrel => rw [PairsUnique, hrel]; exact List.Pairwise.nil
  | redeem db now code sid ok _ ih =>
    exact use_invite_code_preserves_PairsUnique db now code sid ok ih
  | issue db db' tid gen now inv _ hc ih =>
    rw [PairsUnique, create_invite_code_loop_relations db tid gen now (List.range 5) inv db' hc]
    exact ih
  | external db db' _ same ih => rw [PairsUnique, same]; exact ih

/-- Witness for C2 at a concrete reachable state (a successful redemption
starting from `sampleDB`). -/
theorem reachable_relation_pairs_unique_witness :
    PairsUnique (use_invite_code sampleDB 100 "ABC234" 2 true).2 :=
  reachable_relation_pairs_unique _
    (Reachable.redeem sampleDB 100 "ABC234" 2 true (Reachable.init sampleDB rfl))

/-- C6: when no unused invite carries the code — every invite with that
code (if any) is already marked used — redemption returns `"invalid"` with
the database unchanged; "never existed" and "already used" are externally
indistinguishable. -/
theorem use_invite_code_invalid_of_no_unused (db : DB) (now : Int) (code : String)
    (sid : Nat) (ok : Bool)
    (h : ∀ i ∈ db.invites, i.code = code → i.used = true) :
    use_invite_code db now code sid ok = ("invalid", db) := by
  have hfind : find_unused_invite_by_code db code = none := by
    rw [find_unused_invite_by_code, List.find?_eq_none]
    intro i hi hp
    simp only [Bool.and_eq_true, beq_iff_eq] at hp
    obtain ⟨h1, h2⟩ := hp
    rw [h i hi h1] at h2
    simp at h2
  simp [use_invite_code, hfind]

/-- Witness for C6: "USEDCD" exists in `sampleDB` but is already used. -/
theorem use_invite_code_invalid_of_no_unused_witness :
    use_invite_code sampleDB 100 "USEDCD" 2 true = ("invalid", sampleDB) :=
  use_invite_code_invalid_of_no_unused sampleDB 100 "USEDCD" 2 true (by decide)

theorem use_invite_code_fst_ne_expired (db : DB) (now : Int) (code : String) (sid : Nat)
    (ok : Bool) (inv : InviteCode)
    (hfind : find_unused_invite_by_code db code = some inv)
    (hexp : _is_expired now inv = false) :
    (use_invite_code db now code sid ok).1 ≠ "expired" := by
  simp only [use_invite_code, hfind, hexp]
  cases huser : find_user_by_id db sid with
  | none => simp
  | some u =>
    simp only
    by_cases hrole : u.role = "student"
    · simp only [hrole, ne_eq, not_true_eq_false, Bool.false_eq_true, if_false]
      cases hrel : find_relation db inv.teacher_id u.id with
      | some r => simp
      | none => cases ok <;> simp
    · simp [hrole]

/-- C4: when an unused invite with the code exists, redemption yields
`"expired"` exactly when strictly more than `ttl_days = 7` days have
elapsed since `created_at`; in that case it returns before any other check
and leaves the database (and the invite's `used = false` flag) unchanged. -/
theorem use_invite_code_expired_iff (db : DB) (now : Int) (code : String) (sid : Nat)
    (ok : Bool) (inv : InviteCode)
    (hfind : find_unused_invite_by_code db code = some inv) :
    (_is_expired now inv = true ↔ now - inv.created_at > 7 * secondsPerDay) ∧
    ((use_invite_code db now code sid ok).1 = "expired" ↔ _is_expired now inv = true) ∧
    (_is_expired now inv = true → use_invite_code db now code sid ok = ("expired", db)) ∧
    inv.used = false := by
  have hp := List.find?_some hfind
  simp only [Bool.and_eq_true, beq_iff_eq] at hp
  refine ⟨by simp [_is_expired], ?_, ?_, hp.2⟩
  · cases hexp : _is_expired now inv with
    | true => simp [use_invite_code, hfind, hexp]
    | false =>
      simp only [Bool.false_eq_true, iff_false]
      exact use_invite_code_fst_ne_expired db now code sid ok inv hfind hexp
  · intro hexp
    simp [use_invite_code, hfind, hexp]

/-- Witness for C4: redeeming "ABC234" 8 days after issuance is expired. -/
theorem use_invite_code_expired_iff_witness :
    use_invite_code sampleDB (8 * secondsPerDay) "ABC234" 2 true = ("expired", sampleDB) := by
  have h := use_invite_code_expired_iff sampleDB (8 * secondsPerDay) "ABC234" 2 true
    ⟨1, "ABC234", 1, 0, false⟩ (by decide)
  exact h.2.2.1 (by decide)

/-- C9: the expiry test is strict — at exactly `ttl_days` days elapsed the
invite is not expired (`_is_expired` is `false` and redemption does not
return `"expired"`); only a strictly greater elapsed time is expired. -/
theorem use_invite_code_ttl_boundary (db : DB) (now : Int) (code : String) (sid : Nat)
    (ok : Bool) (inv : InviteCode)
    (hfind : find_unused_invite_by_code db code = some inv)
    (hb : now - inv.created_at = 7 * secondsPerDay) :
    _is_expired now inv = false ∧
    (use_invite_code db now code sid ok).1 ≠ "expired" ∧
    (∀ t : Int, _is_expired t inv = true ↔ t - inv.created_at > 7 * secondsPerDay) := by
  have hexp : _is_expired now inv = false := by
    simp [_is_expired, hb]
  exact ⟨hexp, use_invite_code_fst_ne_expired db now code sid ok inv hfind hexp,
         fun t => by simp [_is_expired]⟩

/-- Witness for C9: redeeming "ABC234" exactly 7 days after issuance. -/
theorem use_invite_code_ttl_boundary_witness :
    _is_expired (7 * secondsPerDay) ⟨1, "ABC234", 1, 0, false⟩ = false ∧
    (use_invite_code sampleDB (7 * secondsPerDay) "ABC234" 2 true).1 ≠ "expired" := by
  have h := use_invite_code_ttl_boundary sampleDB (7 * secondsPerDay) "ABC234" 2 true
    ⟨1, "ABC234", 1, 0, false⟩ (by decide) (by decide)
  exact ⟨h.1, h.2.1⟩

/-- C7: with an unused, unexpired invite found, a missing user yields
`"student_not_found"` and a user whose role is not `"student"` yields
`"invalid"` (not a distinct wrong-role outcome); neither modifies state. -/
theorem use_invite_code_student_checks (db : DB) (now : Int) (code : String) (sid : Nat)
    (ok : Bool) (inv : InviteCode)
    (hfind : find_unused_invite_by_code db code = some inv)
    (hexp : _is_expired now inv = false) :
    (find_user_by_id db sid = none →
      use_invite_code db now code sid ok = ("student_not_found", db)) ∧
    (∀ u, find_user_by_id db sid = some u → u.role ≠ "student" →
      use_invite_code db now code sid ok = ("invalid", db)) := by
  constructor
  · intro hu
    simp [use_invite_code, hfind, hexp, hu]
  · intro u hu hrole
    simp [use_invite_code, hfind, hexp, hu, hrole]

/-- Witness for C7: a nonexistent user id 9 and the teacher user id 1. -/
theorem use_invite_code_student_checks_witness :
    use_invite_code sampleDB 100 "ABC234" 9 true = ("student_not_found", sampleDB) ∧
    use_invite_code sampleDB 100 "ABC234" 1 true = ("invalid", sampleDB) := by
  have h9 := use_invite_code_student_checks sampleDB 100 "ABC234" 9 true
    ⟨1, "ABC234", 1, 0, false⟩ (by decide) (by decide)
  have h1 := use_invite_code_student_checks sampleDB 100 "ABC234" 1 true
    ⟨1, "ABC234", 1, 0, false⟩ (by decide) (by decide)
  exact ⟨h9.1 (by decide), h1.2 ⟨1, "teacher"⟩ (by decide) (by decide)⟩

/-- C5: with an unused, unexpired invite, an existing student, and an
existing relation for `(invite.teacher_id, student.id)`, redemption
returns `"already_linked"` with the database unchanged: the invite stays
unused and no relation row is created, so the code remains redeemable. -/
theorem use_invite_code_already_linked (db : DB) (now : Int) (code : String) (sid : Nat)
    (ok : Bool) (inv : InviteCode) (u : User) (r : TeacherStudentRelation)
    (hfind : find_unused_invite_by_code db code = some inv)
    (hexp : _is_expired now inv = false)
    (hu : find_user_by_id db sid = some u)
    (hrole : u.role = "student")
    (hrel : find_relation db inv.teacher_id u.id = some r) :
    use_invite_code db now code sid ok = ("already_linked", db) ∧ inv.used = false := by
  have hp := List.find?_some hfind
  simp only [Bool.and_eq_true, beq_iff_eq] at hp
  refine ⟨?_, hp.2⟩
  simp [use_invite_code, hfind, hexp, hu, hrole, hrel]

/-- Witness for C5: student 2 is already linked to teacher 1 in
`sampleDBLinked`. -/
theorem use_invite_code_already_linked_witness :
    use_invite_code sampleDBLinked 100 "ABC234" 2 true = ("already_linked", sampleDBLinked) := by
  have h := use_invite_code_already_linked sampleDBLinked 100 "ABC234" 2 true
    ⟨1, "ABC234", 1, 0, false⟩ ⟨2, "student"⟩ ⟨1, 1, 2⟩
    (by decide) (by decide) (by decide) (by decide) (by decide)
  exact h.1

/-- C1: on the success path (unused unexpired invite, existing student
with role `"student"`, no prior relation) a committing redemption returns
`"success"` having appended exactly one relation row
`(invite.teacher_id, student.id)` and set that invite's `used` flag, both
in the one transaction; if the commit fails, everything is rolled back
(database unchanged) and the outcome is `"invalid"`. -/
theorem use_invite_code_success_and_rollback (db : DB) (now : Int) (code : String)
    (sid : Nat) (inv : InviteCode) (u : User)
    (hfind : find_unused_invite_by_code db code = some inv)
    (hexp : _is_expired now inv = false)
    (hu : find_user_by_id db sid = some u)
    (hrole : u.role = "student")
    (hrel : find_relation db inv.teacher_id u.id = none) :
    use_invite_code db now code sid true =
      ("success",
        { users := db.users,
          invites := db.invites.map
            (fun i => if i.id = inv.id then { i with used := true } else i),
          relations := db.relations ++ [⟨db.next_rel_id, inv.teacher_id, u.id⟩],
          next_invite_id := db.next_invite_id,
          next_rel_id := db.next_rel_id + 1 }) ∧
    use_invite_code db now code sid false = ("invalid", db) := by
  constructor <;> simp [use_invite_code, hfind, hexp, hu, hrole, hrel]

/-- Witness for C1: student 2 redeems "ABC234" in `sampleDB`; the commit
outcome decides between the success state and an unchanged database. -/
theorem use_invite_code_success_and_rollback_witness :
    (use_invite_code sampleDB 100 "ABC234" 2 true).1 = "success" ∧
    use_invite_code sampleDB 100 "ABC234" 2 false = ("invalid", sampleDB) := by
  have h := use_invite_code_success_and_rollback sampleDB 100 "ABC234" 2
    ⟨1, "ABC234", 1, 0, false⟩ ⟨2, "student"⟩
    (by decide) (by decide) (by decide) (by decide) (by decide)
  exact ⟨by rw [h.1], h.2⟩

theorem create_invite_code_loop_all_fail (db : DB) (tid : Nat) (gen : Nat → String)
    (now : Int) (l : List Nat)
    (h : ∀ a ∈ l, insert_invite_violates db (gen a) tid = true) :
    create_invite_code_loop db tid gen now l = .error "RuntimeError" := by
  induction l with
  | nil => rfl
  | cons a rest ih =>
    simp only [create_invite_code_loop]
    rw [if_pos (h a (List.mem_cons_self a rest))]
    exact ih fun b hb => h b (List.mem_cons_of_mem a hb)

theorem create_invite_code_loop_first_ok (db : DB) (tid : Nat) (gen : Nat → String)
    (now : Int) (l₁ : List Nat) (a : Nat) (l₂ : List Nat)
    (hfail : ∀ b ∈ l₁, insert_invite_violates db (gen b) tid = true)
    (hok : insert_invite_violates db (gen a) tid = false) :
    create_invite_code_loop db tid gen now (l₁ ++ a :: l₂) =
      .ok (mk_invite db (gen a) tid now,
        { db with invites := db.invites ++ [mk_invite db (gen a) tid now],
                  next_invite_id := db.next_invite_id + 1 }) := by
  induction l₁ with
  | nil =>
    simp only [List.nil_append, create_invite_code_loop]
    rw [if_neg (by simp [hok])]
  | cons b rest ih =>
    simp only [List.cons_append, create_invite_code_loop]
    rw [if_pos (hfail b (List.mem_cons_self b rest))]
    exact ih fun c hc => hfail c (List.mem_cons_of_mem b hc)

/-- C3: `create_invite_code` makes at most 5 attempts; the first attempt
whose insert does not collide returns the created invite (`used = false`)
immediately, a colliding attempt is discarded and retried, and if all 5
attempts collide the call raises `RuntimeError`. -/
theorem create_invite_code_retry_spec (db : DB) (tid : Nat) (gen : Nat → String) (now : Int) :
    ((∀ j < 5, insert_invite_violates db (gen j) tid = true) →
      create_invite_code db tid gen now = .error "RuntimeError") ∧
    (∀ i < 5, (∀ j < i, insert_invite_violates db (gen j) tid = true) →
      insert_invite_violates db (gen i) tid = false →
      create_invite_code db tid gen now =
        .ok (mk_invite db (gen i) tid now,
          { db with invites := db.invites ++ [mk_invite db (gen i) tid now],
                    next_invite_id := db.next_invite_id + 1 }) ∧
      (mk_invite db (gen i) tid now).used = false) := by
  constructor
  · intro h
    exact create_invite_code_loop_all_fail db tid gen now (List.range 5)
      fun a ha => h a (List.mem_range.mp ha)
  · intro i hi hprev hok
    refine ⟨?_, rfl⟩
    have hsplit : List.range 5 = List.range i ++ i :: List.range' (i + 1) (4 - i) := by
      interval_cases i <;> decide
    rw [create_invite_code, hsplit]
    exact create_invite_code_loop_first_ok db tid gen now (List.range i) i _
      (fun b hb => hprev b (List.mem_range.mp hb)) hok

/-- Witness for C3: the first two draws collide with the existing code
"ABC234"; the third draw "FRESH1" succeeds and is returned with
`used = false`. -/
theorem create_invite_code_retry_spec_witness :
    create_invite_code sampleDB 1 (fun j => if j < 2 then "ABC234" else "FRESH1") 50 =
      .ok (mk_invite sampleDB "FRESH1" 1 50,
        { sampleDB with invites := sampleDB.invites ++ [mk_invite sampleDB "FRESH1" 1 50],
                        next_invite_id := sampleDB.next_invite_id + 1 }) := by
  have h := (create_invite_code_retry_spec sampleDB 1
    (fun j => if j < 2 then "ABC234" else "FRESH1") 50).2 2 (by decide) (by decide) (by decide)
  exact h.1

/-- C10: every IntegrityError from the insert is treated as a retryable
collision, whatever its cause: with the foreign key on `teacher_id`
violated (no such user), every attempt fails no matter which codes are
generated, and after the 5 attempts the call raises `RuntimeError` instead
of propagating the store error. -/
theorem create_invite_code_any_integrity_error_retried (db : DB) (tid : Nat)
    (gen : Nat → String) (now : Int)
    (h : ∀ u ∈ db.users, u.id ≠ tid) :
    create_invite_code db tid gen now = .error "RuntimeError" := by
  have hv : ∀ code, insert_invite_violates db code tid = true := by
    intro code
    have hany : db.users.any (fun u => u.id == tid) = false := by
      rw [List.any_eq_false]
      intro u hu
      simp [h u hu]
    simp [insert_invite_violates, hany]
  exact create_invite_code_loop_all_fail db tid gen now (List.range 5) fun a _ => hv (gen a)

/-- Witness for C10: no user with id 99 exists in `sampleDB`, so even a
code colliding with nothing fails all 5 attempts. -/
theorem create_invite_code_any_integrity_error_retried_witness :
    create_invite_code sampleDB 99 (fun _ => "ZZZZ99") 50 = .error "RuntimeError" :=
  create_invite_code_any_integrity_error_retried sampleDB 99 (fun _ => "ZZZZ99") 50 (by decide)
